import Mathlib

/-!
Shallow embedding of the parameter-mapping layer and response envelopes of the
aws-security-agentcore-training repository:

* `src/templates/complete-parameter-mapper.py` (namespace `CompleteMapper`)
* `src/templates/parameter-mapper.py`          (namespace `SimpleMapper`)
* `src/templates/gateway-proxy-lambda-fixed.py` (namespace `GatewayProxy`)

Python values travelling through these scripts (strings, ints, bools, lists,
dicts, None) are modelled by the `Json` type below; Python dicts are modelled
as association lists that preserve insertion order and update in place, which
matches CPython dict semantics.
-/

/-- A JSON-ish value: the universe of values handled by the mappers and the
Lambda response builders (`None`, bools, ints, strings, lists, dicts). -/
inductive Json where
  | null : Json
  | bool (b : Bool) : Json
  | num (n : Int) : Json
  | str (s : String) : Json
  | arr (elems : List Json) : Json
  | obj (fields : List (String × Json)) : Json

/-- Python `value is None` test. -/
def Json.isNull : Json → Bool
  | .null => true
  | _ => false

/-- Single-quote character, used by the Python `str()`/`repr()` model. -/
def pySQuote : String := String.singleton (Char.ofNat 39)

/-- Double-quote character, used by the `json.dumps` model. -/
def pyDQuote : String := String.singleton (Char.ofNat 34)

/-- Escape a string for JSON output (model of `json.dumps` string escaping,
covering the backslash and double-quote cases). -/
def jsonEscape (s : String) : String :=
  s.foldl (fun acc c =>
    if c = Char.ofNat 92 then acc ++ String.singleton (Char.ofNat 92) ++ String.singleton (Char.ofNat 92)
    else if c = Char.ofNat 34 then acc ++ String.singleton (Char.ofNat 92) ++ String.singleton (Char.ofNat 34)
    else acc ++ String.singleton c) ""

mutual
/-- Model of Python `json.dumps`: serialize a `Json` value to a `String`. -/
def Json.dumps : Json → String
  | .null => "null"
  | .bool b => if b then "true" else "false"
  | .num n => toString n
  | .str s => pyDQuote ++ jsonEscape s ++ pyDQuote
  | .arr xs => "[" ++ Json.dumpsList xs ++ "]"
  | .obj fs => "\x7b" ++ Json.dumpsFields fs ++ "\x7d"

/-- Serialize a list of JSON values, comma-separated. -/
def Json.dumpsList : List Json → String
  | [] => ""
  | [x] => Json.dumps x
  | x :: xs => Json.dumps x ++ ", " ++ Json.dumpsList xs

/-- Serialize the fields of a JSON object, comma-separated. -/
def Json.dumpsFields : List (String × Json) → String
  | [] => ""
  | [(k, v)] => pyDQuote ++ jsonEscape k ++ pyDQuote ++ ": " ++ Json.dumps v
  | (k, v) :: fs => pyDQuote ++ jsonEscape k ++ pyDQuote ++ ": " ++ Json.dumps v ++ ", " ++ Json.dumpsFields fs
end

/-- Python dict write `d[k] = v`: if the key is present, the value is updated
in place (the key keeps its position); otherwise the pair is appended. -/
def setKey (m : List (String × Json)) (k : String) (v : Json) : List (String × Json) :=
  match m with
  | [] => [(k, v)]
  | (k₀, v₀) :: rest =>
    if k₀ = k then (k₀, v) :: rest else (k₀, v₀) :: setKey rest k v

/-- Field access on a JSON object (`obj[k]` on dicts, `None`-free lookup). -/
def jget (j : Json) (k : String) : Option Json :=
  match j with
  | .obj fields => List.lookup k fields
  | _ => none

namespace GatewayProxy

/-!
Embedding of `src/templates/gateway-proxy-lambda-fixed.py`.

Only the pure parts are modelled: the response builders `success_response`
and `error_response` (the safety-critical envelope shape), and the inline
operation-to-tool-name lookup of `lambda_handler` (the `tool_name_map.get`
call with its synthesized-name fallback). The HTTP/OAuth calls are I/O and
are outside the embedding.
-/

/-- An incoming Lambda event, modelled as the Python dict it is. -/
def Event := List (String × Json)

/-- Python `event.get(key, '')`. -/
def eventGet (event : Event) (key : String) : Json :=
  (List.lookup key event).getD (Json.str "")

/-- Embedding of `success_response(event, data)`: the fixed Bedrock envelope
with status 200 and `json.dumps(data)` as the body string. -/
def success_response (event : Event) (data : Json) : Json :=
  Json.obj [
    ("messageVersion", Json.str "1.0"),
    ("response", Json.obj [
      ("actionGroup", eventGet event "actionGroup"),
      ("apiPath", eventGet event "apiPath"),
      ("httpMethod", eventGet event "httpMethod"),
      ("httpStatusCode", Json.num 200),
      ("responseBody", Json.obj [
        ("application/json", Json.obj [
          ("body", Json.str (Json.dumps data))
        ])
      ])
    ])
  ]

/-- Embedding of `error_response(event, error_msg)`: the fixed Bedrock
envelope with status 500 and a serialized error object as the body string. -/
def error_response (event : Event) (error_msg : String) : Json :=
  Json.obj [
    ("messageVersion", Json.str "1.0"),
    ("response", Json.obj [
      ("actionGroup", eventGet event "actionGroup"),
      ("apiPath", eventGet event "apiPath"),
      ("httpMethod", eventGet event "httpMethod"),
      ("httpStatusCode", Json.num 500),
      ("responseBody", Json.obj [
        ("application/json", Json.obj [
          ("body", Json.str (Json.dumps (Json.obj [("error", Json.str error_msg)])))
        ])
      ])
    ])
  ]

/-- The `body` field of a response envelope: follows
`response -> responseBody -> 'application/json' -> body`. -/
def bodyField (resp : Json) : Option Json :=
  (jget resp "response").bind fun r =>
    (jget r "responseBody").bind fun rb =>
      (jget rb "application/json").bind fun aj =>
        jget aj "body"

/-- The inline `tool_name_map` of `lambda_handler` (lines 64-70). -/
def tool_name_map : List (String × String) := [
  ("get_security_status", "SecurityMCPTools___CheckSecurityServices"),
  ("get_security_findings", "SecurityMCPTools___GetSecurityFindings"),
  ("check_storage_encryption", "SecurityMCPTools___CheckStorageEncryption"),
  ("list_services_in_region", "SecurityMCPTools___ListServicesInRegion"),
  ("check_network_security", "SecurityMCPTools___CheckNetworkSecurity")
]

/-- The lambda handler's tool-name resolution (line 72):
`tool_name_map.get(operation_id, f'SecurityMCPTools___\x7boperation_id\x7d')`,
i.e. a lookup with a synthesized-name fallback. -/
def mcpToolName (operation_id : String) : String :=
  (List.lookup operation_id tool_name_map).getD ("SecurityMCPTools___" ++ operation_id)

end GatewayProxy

mutual
/-- Python `repr()` on the values of this model (used by `str()` on
non-string values; element escaping inside strings is not modelled since no
claim depends on it). -/
def pyRepr : Json → String
  | .null => "None"
  | .bool b => if b then "True" else "False"
  | .num n => toString n
  | .str s => pySQuote ++ s ++ pySQuote
  | .arr xs => "[" ++ pyReprList xs ++ "]"
  | .obj fs => "\x7b" ++ pyReprFields fs ++ "\x7d"

/-- Comma-separated `repr` of list elements. -/
def pyReprList : List Json → String
  | [] => ""
  | [x] => pyRepr x
  | x :: xs => pyRepr x ++ ", " ++ pyReprList xs

/-- Comma-separated `repr` of dict items. -/
def pyReprFields : List (String × Json) → String
  | [] => ""
  | [(k, v)] => pySQuote ++ k ++ pySQuote ++ ": " ++ pyRepr v
  | (k, v) :: fs => pySQuote ++ k ++ pySQuote ++ ": " ++ pyRepr v ++ ", " ++ pyReprFields fs
end

/-- Python `str()` on the values of this model. -/
def pyStr : Json → String
  | .str s => s
  | v => pyRepr v

/-- Python `str.strip()` at the character-list level: drop leading and
trailing whitespace (ASCII whitespace; enough for the data at hand). -/
def pyTrimChars (l : List Char) : List Char :=
  ((l.dropWhile Char.isWhitespace).reverse.dropWhile Char.isWhitespace).reverse

/-- Python `str.strip()`. -/
def pyTrim (s : String) : String := ⟨pyTrimChars s.data⟩

/-- ASCII lower-casing of one character (Python `str.lower` restricted to
ASCII, which covers every string these scripts compare). -/
def lowerChar (c : Char) : Char :=
  if 65 ≤ c.toNat ∧ c.toNat ≤ 90 then Char.ofNat (c.toNat + 32) else c

/-- Python `str.lower()` (ASCII). -/
def pyLower (s : String) : String := ⟨s.data.map lowerChar⟩

/-- Python `',' in s`. -/
def pyContains (s : String) (c : Char) : Bool := s.data.contains c

/-- Python `s.split(sep)` at the character-list level, for a one-character
separator: split at every occurrence, keeping empty segments. -/
def pySplitChars (sep : Char) : List Char → List Char → List (List Char)
  | [], acc => [acc.reverse]
  | x :: xs, acc =>
    if x = sep then acc.reverse :: pySplitChars sep xs []
    else pySplitChars sep xs (x :: acc)

/-- Python `s.split(sep)` for a one-character separator. -/
def pySplit (s : String) (sep : Char) : List String :=
  (pySplitChars sep s.data []).map (fun l => ⟨l⟩)

/-- Python truthiness (`bool(value)`) on the values of this model. -/
def truthy : Json → Bool
  | .null => false
  | .bool b => b
  | .num n => decide (n ≠ 0)
  | .str s => !s.data.isEmpty
  | .arr l => !l.isEmpty
  | .obj l => !l.isEmpty

/-- Python `int()` applied to a string: optional surrounding whitespace,
optional sign, one or more decimal digits; anything else raises
(`none` here). Numeric-literal underscores are not modelled. -/
def parseIntPy (s : String) : Option Int :=
  let t := pyTrimChars s.data
  let (sign, digits) :=
    match t with
    | c :: rest =>
      if c = Char.ofNat 45 then ((-1 : Int), rest)
      else if c = Char.ofNat 43 then ((1 : Int), rest)
      else ((1 : Int), t)
    | [] => ((1 : Int), t)
  if digits.isEmpty then none
  else if digits.all Char.isDigit then
    some (sign * ((digits.foldl (fun acc c => acc * 10 + (c.toNat - 48)) 0 : Nat) : Int))
  else none

/-- The declared parameter types appearing in the tool signatures. -/
inductive PType where
  | string
  | integer
  | boolean
  | array
deriving DecidableEq, Repr

/-- One entry of a tool signature's `parameters` dict. The `description`
strings of the source are dropped (no code reads them). A Python default of
`None` is `Json.null`. -/
structure ParamSpec where
  type : PType
  required : Bool
  default : Json

/-- A tool signature: the `parameters` dict, in source order. -/
def ParamSig := List (String × ParamSpec)

/-- The errors `map_parameters` can raise (the `ValueError`s of the source,
tagged by the spec's taxonomy). -/
inductive MapError where
  | unknownOperation (operation_id : String)
  | unknownTool (tool_name : String)
  | missingRequired (names : List String)
  | typeCoercion (parameter : String) (raw : Json) (target : PType)

/-- Result of a mapping call: the `(tool_name, mapped_parameters)` pair or a
raised error. -/
inductive MapResult where
  | ok (tool_name : String) (mapped : List (String × Json))
  | err (e : MapError)

/-- Python `param_name not in mapped_params or mapped_params[param_name] is
None` (the required-parameter test of the complete mapper). -/
def missingOrNull (m : List (String × Json)) (k : String) : Bool :=
  match List.lookup k m with
  | none => true
  | some v => v.isNull

/-- Python `if not bedrock_name`: true when `.get('name')` gave `None` or an
empty string. -/
def nameFalsy : Option String → Bool
  | none => true
  | some s => s.data.isEmpty

/-- One element of the Bedrock `parameters` list, as read by
`bedrock_param.get('name')` / `.get('value')`: a possibly missing name and a
value (`Json.null` models a missing or `None` value). -/
structure InboundParam where
  name : Option String
  value : Json

namespace CompleteMapper

/-!
Embedding of `src/templates/complete-parameter-mapper.py`.
-/

/-- `parameters` of `SecurityMCPTools___CheckSecurityServices` (lines 9-48). -/
def checkSecurityServicesSig : ParamSig := [
  ("region", ⟨.string, false, Json.str "us-east-1"⟩),
  ("services", ⟨.array, false, Json.arr [Json.str "guardduty", Json.str "inspector",
    Json.str "accessanalyzer", Json.str "securityhub", Json.str "trustedadvisor", Json.str "macie"]⟩),
  ("account_id", ⟨.string, false, Json.null⟩),
  ("aws_profile", ⟨.string, false, Json.str "default"⟩),
  ("store_in_context", ⟨.boolean, false, Json.bool true⟩),
  ("debug", ⟨.boolean, false, Json.bool true⟩)
]

/-- `parameters` of `SecurityMCPTools___GetSecurityFindings` (lines 50-89). -/
def getSecurityFindingsSig : ParamSig := [
  ("region", ⟨.string, false, Json.str "us-east-1"⟩),
  ("service", ⟨.string, true, Json.null⟩),
  ("max_findings", ⟨.integer, false, Json.num 100⟩),
  ("severity_filter", ⟨.string, false, Json.null⟩),
  ("aws_profile", ⟨.string, false, Json.str "default"⟩),
  ("check_enabled", ⟨.boolean, false, Json.bool true⟩)
]

/-- `parameters` of `SecurityMCPTools___CheckStorageEncryption` (lines 91-124). -/
def checkStorageEncryptionSig : ParamSig := [
  ("region", ⟨.string, false, Json.str "us-east-1"⟩),
  ("services", ⟨.array, false, Json.arr [Json.str "s3", Json.str "ebs", Json.str "rds",
    Json.str "dynamodb", Json.str "efs", Json.str "elasticache"]⟩),
  ("include_unencrypted_only", ⟨.boolean, false, Json.bool false⟩),
  ("aws_profile", ⟨.string, false, Json.str "default"⟩),
  ("store_in_context", ⟨.boolean, false, Json.bool true⟩)
]

/-- `parameters` of `SecurityMCPTools___CheckNetworkSecurity` (lines 126-159). -/
def checkNetworkSecuritySig : ParamSig := [
  ("region", ⟨.string, false, Json.str "us-east-1"⟩),
  ("services", ⟨.array, false, Json.arr [Json.str "elb", Json.str "vpc",
    Json.str "apigateway", Json.str "cloudfront"]⟩),
  ("include_non_compliant_only", ⟨.boolean, false, Json.bool false⟩),
  ("aws_profile", ⟨.string, false, Json.str "default"⟩),
  ("store_in_context", ⟨.boolean, false, Json.bool true⟩)
]

/-- `parameters` of `SecurityMCPTools___ListServicesInRegion` (lines 161-182). -/
def listServicesInRegionSig : ParamSig := [
  ("region", ⟨.string, false, Json.str "us-east-1"⟩),
  ("aws_profile", ⟨.string, false, Json.str "default"⟩),
  ("store_in_context", ⟨.boolean, false, Json.bool true⟩)
]

/-- `parameters` of `SecurityMCPTools___GetStoredSecurityContext` (lines 184-199). -/
def getStoredSecurityContextSig : ParamSig := [
  ("region", ⟨.string, false, Json.str "us-east-1"⟩),
  ("detailed", ⟨.boolean, false, Json.bool false⟩)
]

/-- `GATEWAY_TOOL_SIGNATURES` of the complete mapper (lines 8-200), in
source order. -/
def GATEWAY_TOOL_SIGNATURES : List (String × ParamSig) := [
  ("SecurityMCPTools___CheckSecurityServices", checkSecurityServicesSig),
  ("SecurityMCPTools___GetSecurityFindings", getSecurityFindingsSig),
  ("SecurityMCPTools___CheckStorageEncryption", checkStorageEncryptionSig),
  ("SecurityMCPTools___CheckNetworkSecurity", checkNetworkSecuritySig),
  ("SecurityMCPTools___ListServicesInRegion", listServicesInRegionSig),
  ("SecurityMCPTools___GetStoredSecurityContext", getStoredSecurityContextSig)
]

/-- `OPERATION_TO_TOOL_MAP` of the complete mapper (lines 203-210). -/
def OPERATION_TO_TOOL_MAP : List (String × String) := [
  ("checkSecurityStatus", "SecurityMCPTools___CheckSecurityServices"),
  ("getSecurityFindings", "SecurityMCPTools___GetSecurityFindings"),
  ("checkStorageEncryption", "SecurityMCPTools___CheckStorageEncryption"),
  ("checkNetworkSecurity", "SecurityMCPTools___CheckNetworkSecurity"),
  ("listServicesInRegion", "SecurityMCPTools___ListServicesInRegion"),
  ("getStoredContext", "SecurityMCPTools___GetStoredSecurityContext")
]

/-- `PARAMETER_NAME_MAP` of the complete mapper (lines 213-279): per-tool
alias map from inbound spellings to canonical parameter names. -/
def PARAMETER_NAME_MAP : List (String × List (String × String)) := [
  ("SecurityMCPTools___CheckSecurityServices", [
    ("region", "region"),
    ("service", "services"),
    ("services", "services"),
    ("accountId", "account_id"),
    ("account_id", "account_id"),
    ("awsProfile", "aws_profile"),
    ("aws_profile", "aws_profile"),
    ("storeInContext", "store_in_context"),
    ("store_in_context", "store_in_context"),
    ("debug", "debug")
  ]),
  ("SecurityMCPTools___GetSecurityFindings", [
    ("region", "region"),
    ("service", "service"),
    ("maxFindings", "max_findings"),
    ("max_findings", "max_findings"),
    ("severityFilter", "severity_filter"),
    ("severity_filter", "severity_filter"),
    ("severity", "severity_filter"),
    ("awsProfile", "aws_profile"),
    ("aws_profile", "aws_profile"),
    ("checkEnabled", "check_enabled"),
    ("check_enabled", "check_enabled")
  ]),
  ("SecurityMCPTools___CheckStorageEncryption", [
    ("region", "region"),
    ("service", "services"),
    ("services", "services"),
    ("includeUnencryptedOnly", "include_unencrypted_only"),
    ("include_unencrypted_only", "include_unencrypted_only"),
    ("unencryptedOnly", "include_unencrypted_only"),
    ("awsProfile", "aws_profile"),
    ("aws_profile", "aws_profile"),
    ("storeInContext", "store_in_context"),
    ("store_in_context", "store_in_context")
  ]),
  ("SecurityMCPTools___CheckNetworkSecurity", [
    ("region", "region"),
    ("service", "services"),
    ("services", "services"),
    ("includeNonCompliantOnly", "include_non_compliant_only"),
    ("include_non_compliant_only", "include_non_compliant_only"),
    ("nonCompliantOnly", "include_non_compliant_only"),
    ("awsProfile", "aws_profile"),
    ("aws_profile", "aws_profile"),
    ("storeInContext", "store_in_context"),
    ("store_in_context", "store_in_context")
  ]),
  ("SecurityMCPTools___ListServicesInRegion", [
    ("region", "region"),
    ("awsProfile", "aws_profile"),
    ("aws_profile", "aws_profile"),
    ("storeInContext", "store_in_context"),
    ("store_in_context", "store_in_context")
  ]),
  ("SecurityMCPTools___GetStoredSecurityContext", [
    ("region", "region"),
    ("detailed", "detailed")
  ])
]

/-- The type-conversion block of `map_parameters` (lines 333-363): converts
an inbound value to the expected type; `none` models the `ValueError` /
`TypeError` that the enclosing `except` clause catches. -/
def coerceValue (expected_type : PType) (v : Json) : Option Json :=
  match expected_type with
  | .array =>
    match v with
    | .arr l => some (.arr l)
    | .str s =>
      if pyContains s (Char.ofNat 44) then
        some (.arr ((pySplit s (Char.ofNat 44)).map (fun seg => Json.str (pyTrim seg))))
      else
        some (.arr [.str s])
    | other => some (.arr [.str (pyStr other)])
  | .integer =>
    match v with
    | .num n => some (.num n)
    | .bool b => some (.num (if b then 1 else 0))
    | .str s => (parseIntPy s).map Json.num
    | _ => none
  | .boolean =>
    match v with
    | .bool b => some (.bool b)
    | .str s => some (.bool (["true", "1", "yes", "on"].contains (pyLower s)))
    | other => some (.bool (truthy other))
  | .string => some (.str (pyStr v))

/-- The body of the `for bedrock_param in bedrock_parameters` loop of
`map_parameters` (lines 315-363): skip falsy names and `None` values, skip
names with no alias (with a logged warning), coerce, and store under the
canonical name; a coercion failure is caught, logged and skipped. -/
def applyParam (tool_sig : ParamSig) (param_map : List (String × String))
    (m : List (String × Json)) (bp : InboundParam) : List (String × Json) :=
  if nameFalsy bp.name || bp.value.isNull then m
  else
    match List.lookup (bp.name.getD "") param_map with
    | none => m
    | some gateway_name =>
      let expected_type := ((List.lookup gateway_name tool_sig).map (fun d => d.type)).getD .string
      match coerceValue expected_type bp.value with
      | none => m
      | some v => setKey m gateway_name v

/-- Embedding of `map_parameters(operation_id, bedrock_parameters)`
(lines 282-377): resolve tool, seed non-null defaults, fold the inbound
list, validate required parameters, strip `None` values. -/
def map_parameters (operation_id : String) (bedrock_parameters : List InboundParam) : MapResult :=
  match List.lookup operation_id OPERATION_TO_TOOL_MAP with
  | none => .err (.unknownOperation operation_id)
  | some tool_name =>
    match List.lookup tool_name GATEWAY_TOOL_SIGNATURES with
    | none => .err (.unknownTool tool_name)
    | some tool_sig =>
      let param_map := (List.lookup tool_name PARAMETER_NAME_MAP).getD []
      let seeded := tool_sig.foldl
        (fun m p => if p.2.default.isNull then m else setKey m p.1 p.2.default) []
      let mapped := bedrock_parameters.foldl (applyParam tool_sig param_map) seeded
      let missing := (tool_sig.filter (fun p => p.2.required && missingOrNull mapped p.1)).map Prod.fst
      if missing.isEmpty then .ok tool_name (mapped.filter (fun kv => !kv.2.isNull))
      else .err (.missingRequired missing)

end CompleteMapper

namespace SimpleMapper

/-!
Embedding of `src/templates/parameter-mapper.py` (the earlier template).

Its loop reads `bedrock_param.get('name')` without a falsy-name guard; every
inbound parameter in scope of the claims carries a name, so inbound
parameters are modelled as `(name, value)` pairs with the name present.
-/

/-- `GATEWAY_TOOL_SIGNATURES` of the simple mapper (lines 8-29). -/
def GATEWAY_TOOL_SIGNATURES : List (String × ParamSig) := [
  ("SecurityMCPTools___CheckSecurityServices", [
    ("region", ⟨.string, true, Json.str "us-east-1"⟩),
    ("service_names", ⟨.array, false, Json.arr []⟩)
  ]),
  ("SecurityMCPTools___GetSecurityFindings", [
    ("region", ⟨.string, true, Json.str "us-east-1"⟩),
    ("severity", ⟨.string, false, Json.str "ALL"⟩),
    ("service", ⟨.string, false, Json.null⟩),
    ("limit", ⟨.integer, false, Json.num 100⟩)
  ]),
  ("SecurityMCPTools___CheckStorageEncryption", [
    ("region", ⟨.string, true, Json.str "us-east-1"⟩),
    ("service_type", ⟨.string, false, Json.str "ALL"⟩)
  ])
]

/-- `OPERATION_TO_TOOL_MAP` of the simple mapper (lines 32-37). -/
def OPERATION_TO_TOOL_MAP : List (String × String) := [
  ("checkSecurityStatus", "SecurityMCPTools___CheckSecurityServices"),
  ("getSecurityFindings", "SecurityMCPTools___GetSecurityFindings"),
  ("checkStorageEncryption", "SecurityMCPTools___CheckStorageEncryption")
]

/-- `PARAMETER_NAME_MAP` of the simple mapper (lines 40-57). -/
def PARAMETER_NAME_MAP : List (String × List (String × String)) := [
  ("SecurityMCPTools___CheckSecurityServices", [
    ("region", "region"),
    ("service", "service_names"),
    ("services", "service_names")
  ]),
  ("SecurityMCPTools___GetSecurityFindings", [
    ("region", "region"),
    ("severity", "severity"),
    ("service", "service"),
    ("limit", "limit")
  ]),
  ("SecurityMCPTools___CheckStorageEncryption", [
    ("region", "region"),
    ("serviceType", "service_type"),
    ("service_type", "service_type")
  ])
]

/-- The body of the parameter loop of the simple mapper (lines 92-121):
unknown names fall back to themselves (`param_map.get(name, name)`), arrays
are wrapped without comma-splitting, and an `int()` failure propagates as an
uncaught error. -/
def applyParam (tool_sig : ParamSig) (param_map : List (String × String))
    (m : List (String × Json)) (bp : String × Json) :
    Except MapError (List (String × Json)) :=
  let gateway_name := (List.lookup bp.1 param_map).getD bp.1
  let expected_type := ((List.lookup gateway_name tool_sig).map (fun d => d.type)).getD .string
  match expected_type with
  | .array =>
    match bp.2 with
    | .arr l => .ok (setKey m gateway_name (.arr l))
    | v => .ok (setKey m gateway_name (.arr [v]))
  | .integer =>
    match bp.2 with
    | .num n => .ok (setKey m gateway_name (.num n))
    | .bool b => .ok (setKey m gateway_name (.num (if b then 1 else 0)))
    | .str s =>
      match parseIntPy s with
      | some n => .ok (setKey m gateway_name (.num n))
      | none => .error (.typeCoercion gateway_name bp.2 .integer)
    | v => .error (.typeCoercion gateway_name v .integer)
  | .boolean =>
    match bp.2 with
    | .str s => .ok (setKey m gateway_name (.bool (["true", "1", "yes"].contains (pyLower s))))
    | v => .ok (setKey m gateway_name (.bool (truthy v)))
  | .string => .ok (setKey m gateway_name (.str (pyStr bp.2)))

/-- Fold the parameter loop over the inbound list, propagating the first
raised error (Python exception propagation). -/
def applyAll (tool_sig : ParamSig) (param_map : List (String × String))
    (m : List (String × Json)) :
    List (String × Json) → Except MapError (List (String × Json))
  | [] => .ok m
  | bp :: rest =>
    match applyParam tool_sig param_map m bp with
    | .ok m₁ => applyAll tool_sig param_map m₁ rest
    | .error e => .error e

/-- Embedding of the simple mapper's `map_parameters` (lines 60-128):
resolve tool, seed non-`None` defaults, process inbound parameters, then
check required names by presence only (no `None` check, no `None` strip). -/
def map_parameters (operation_id : String) (bedrock_parameters : List (String × Json)) : MapResult :=
  match List.lookup operation_id OPERATION_TO_TOOL_MAP with
  | none => .err (.unknownOperation operation_id)
  | some tool_name =>
    match List.lookup tool_name GATEWAY_TOOL_SIGNATURES with
    | none => .err (.unknownTool tool_name)
    | some tool_sig =>
      let param_map := (List.lookup tool_name PARAMETER_NAME_MAP).getD []
      let seeded := tool_sig.foldl
        (fun m p => if p.2.default.isNull then m else setKey m p.1 p.2.default) []
      match applyAll tool_sig param_map seeded bedrock_parameters with
      | .error e => .err e
      | .ok mapped =>
        let missing := (tool_sig.filter
          (fun p => p.2.required && (List.lookup p.1 mapped).isNone)).map Prod.fst
        match missing with
        | [] => .ok tool_name mapped
        | name :: _ => .err (.missingRequired [name])

end SimpleMapper

/-! ## Helper definitions and lemmas shared by the theorems -/

/-- Whether a mapping call returned a result (did not raise). -/
def MapResult.isOk : MapResult → Bool
  | .ok _ _ => true
  | .err _ => false

/-- The required parameter names of a registered tool whose default is
absent (`None`): with an empty inbound list, exactly these can be reported
missing. -/
def requiredLackingDefault (sigs : List (String × ParamSig)) (tool_name : String) : List String :=
  match List.lookup tool_name sigs with
  | none => []
  | some sig => (sig.filter (fun p => p.2.required && p.2.default.isNull)).map Prod.fst

/-- Folding over a list in which one element is a no-op for the fold step
gives the same result as folding without that element. -/
theorem foldl_skip {α β : Type _} (f : β → α → β) (x : α) (hx : ∀ m, f m x = m) :
    ∀ (pre post : List α) (init : β),
      List.foldl f init (pre ++ x :: post) = List.foldl f init (pre ++ post) := by
  intro pre
  induction pre with
  | nil => intro post init; simp [List.foldl, hx]
  | cons a as ih => intro post init; simpa [List.foldl] using ih post (f init a)

/-! ## Claim theorems -/

/-- C1: every envelope produced by `success_response` and `error_response`
in the gateway proxy Lambda carries `messageVersion` `'1.0'`, and the `body`
field under `responseBody -> 'application/json'` is the `json.dumps`
serialization of the payload — a string node, never a structured value —
for every input event and every data / error-message argument. -/
theorem c1_response_envelope_invariant :
    ∀ (event : GatewayProxy.Event) (data : Json) (error_msg : String),
      jget (GatewayProxy.success_response event data) "messageVersion" = some (Json.str "1.0") ∧
      GatewayProxy.bodyField (GatewayProxy.success_response event data)
        = some (Json.str (Json.dumps data)) ∧
      jget (GatewayProxy.error_response event error_msg) "messageVersion" = some (Json.str "1.0") ∧
      GatewayProxy.bodyField (GatewayProxy.error_response event error_msg)
        = some (Json.str (Json.dumps (Json.obj [("error", Json.str error_msg)]))) := by
  intro event data error_msg
  exact ⟨rfl, rfl, rfl, rfl⟩

/-- C2 counterexample: the spec's end-to-end scenario omits the required
`service` parameter of `SecurityMCPTools___GetSecurityFindings` (required,
default `None`), so the call raises `Missing required parameters: service`
instead of succeeding. -/
theorem c2_missing_service_counterexample :
    CompleteMapper.map_parameters "getSecurityFindings"
      [⟨some "region", Json.str "us-west-2"⟩,
       ⟨some "severity", Json.str "HIGH"⟩,
       ⟨some "maxFindings", Json.str "50"⟩] =
      .err (.missingRequired ["service"]) := rfl

/-- C2 amended: the scenario's inbound list fails with
`MissingRequiredParameter(["service"])`; once `service` is also supplied the
call resolves to `SecurityMCPTools___GetSecurityFindings` with exactly the
claimed arguments plus `service` (defaults filled for the unset optional
fields). -/
theorem c2_get_findings_scenario_amended :
    CompleteMapper.map_parameters "getSecurityFindings"
      [⟨some "region", Json.str "us-west-2"⟩,
       ⟨some "severity", Json.str "HIGH"⟩,
       ⟨some "maxFindings", Json.str "50"⟩] =
      .err (.missingRequired ["service"]) ∧
    CompleteMapper.map_parameters "getSecurityFindings"
      [⟨some "region", Json.str "us-west-2"⟩,
       ⟨some "severity", Json.str "HIGH"⟩,
       ⟨some "maxFindings", Json.str "50"⟩,
       ⟨some "service", Json.str "securityhub"⟩] =
      .ok "SecurityMCPTools___GetSecurityFindings"
        [("region", Json.str "us-west-2"),
         ("max_findings", Json.num 50),
         ("aws_profile", Json.str "default"),
         ("check_enabled", Json.bool true),
         ("severity_filter", Json.str "HIGH"),
         ("service", Json.str "securityhub")] := ⟨rfl, rfl⟩

/-- C3: for every operation id in each operation map, mapping an empty
inbound list succeeds iff no required parameter of the resolved tool lacks
a non-null default, and a failure is `MissingRequiredParameter` listing
exactly the required, default-less names. -/
theorem c3_empty_inbound_missing_required :
    (∀ p ∈ CompleteMapper.OPERATION_TO_TOOL_MAP,
      ((CompleteMapper.map_parameters p.1 []).isOk = true ↔
        requiredLackingDefault CompleteMapper.GATEWAY_TOOL_SIGNATURES p.2 = []) ∧
      (requiredLackingDefault CompleteMapper.GATEWAY_TOOL_SIGNATURES p.2 ≠ [] →
        CompleteMapper.map_parameters p.1 [] =
          .err (.missingRequired (requiredLackingDefault CompleteMapper.GATEWAY_TOOL_SIGNATURES p.2)))) ∧
    (∀ p ∈ SimpleMapper.OPERATION_TO_TOOL_MAP,
      ((SimpleMapper.map_parameters p.1 []).isOk = true ↔
        requiredLackingDefault SimpleMapper.GATEWAY_TOOL_SIGNATURES p.2 = []) ∧
      (requiredLackingDefault SimpleMapper.GATEWAY_TOOL_SIGNATURES p.2 ≠ [] →
        SimpleMapper.map_parameters p.1 [] =
          .err (.missingRequired (requiredLackingDefault SimpleMapper.GATEWAY_TOOL_SIGNATURES p.2)))) := by
  constructor
  · intro p hp
    fin_cases hp <;>
      refine ⟨⟨fun h => ?_, fun h => ?_⟩, fun h => ?_⟩ <;>
        first
          | rfl
          | exact absurd h (by decide)
  · intro p hp
    fin_cases hp <;>
      refine ⟨⟨fun h => ?_, fun h => ?_⟩, fun h => ?_⟩ <;>
        first
          | rfl
          | exact absurd h (by decide)

/-- C3 witness: instantiation at the operation `getSecurityFindings` of the
complete mapper, whose resolved tool has the default-less required
parameter `service`. -/
theorem c3_empty_inbound_missing_required_witness :
    (("getSecurityFindings", "SecurityMCPTools___GetSecurityFindings")
        ∈ CompleteMapper.OPERATION_TO_TOOL_MAP) ∧
    (((CompleteMapper.map_parameters "getSecurityFindings" []).isOk = true ↔
        requiredLackingDefault CompleteMapper.GATEWAY_TOOL_SIGNATURES
          "SecurityMCPTools___GetSecurityFindings" = []) ∧
      (requiredLackingDefault CompleteMapper.GATEWAY_TOOL_SIGNATURES
          "SecurityMCPTools___GetSecurityFindings" ≠ [] →
        CompleteMapper.map_parameters "getSecurityFindings" [] =
          .err (.missingRequired (requiredLackingDefault
            CompleteMapper.GATEWAY_TOOL_SIGNATURES "SecurityMCPTools___GetSecurityFindings")))) :=
  ⟨by decide,
   c3_empty_inbound_missing_required.1
     ("getSecurityFindings", "SecurityMCPTools___GetSecurityFindings") (by decide)⟩

/-- C4 counterexample: with inbound `maxFindings = "fifty"` (non-numeric,
integer-typed) the complete mapper does not fail with a coercion error: the
`except` clause logs a warning and drops the parameter, and the call
succeeds with the default `max_findings = 100`. -/
theorem c4_integer_coercion_counterexample :
    CompleteMapper.map_parameters "getSecurityFindings"
      [⟨some "service", Json.str "guardduty"⟩,
       ⟨some "maxFindings", Json.str "fifty"⟩] =
      .ok "SecurityMCPTools___GetSecurityFindings"
        [("region", Json.str "us-east-1"),
         ("max_findings", Json.num 100),
         ("aws_profile", Json.str "default"),
         ("check_enabled", Json.bool true),
         ("service", Json.str "guardduty")] := rfl

/-- C4 amended: in the complete mapper a non-numeric string bound to an
integer-typed parameter is logged and dropped — the mapping result is the
same as if the parameter had not been supplied, so the raw value is never
passed through; in the basic `parameter-mapper.py` template the `int()`
failure propagates as a type-coercion error. -/
theorem c4_integer_coercion_amended :
    (∀ (operation_id tool_name : String) (tool_sig : ParamSig)
       (pre post : List InboundParam) (name gateway_name s : String),
       List.lookup operation_id CompleteMapper.OPERATION_TO_TOOL_MAP = some tool_name →
       List.lookup tool_name CompleteMapper.GATEWAY_TOOL_SIGNATURES = some tool_sig →
       List.lookup name ((List.lookup tool_name CompleteMapper.PARAMETER_NAME_MAP).getD []) =
         some gateway_name →
       ((List.lookup gateway_name tool_sig).map (fun d => d.type)).getD PType.string =
         PType.integer →
       parseIntPy s = none →
       CompleteMapper.map_parameters operation_id (pre ++ ⟨some name, Json.str s⟩ :: post) =
         CompleteMapper.map_parameters operation_id (pre ++ post)) ∧
    SimpleMapper.map_parameters "getSecurityFindings" [("limit", Json.str "fifty")] =
      .err (.typeCoercion "limit" (Json.str "fifty") PType.integer) := by
  constructor
  · intro operation_id tool_name tool_sig pre post name gateway_name s h1 h2 halias htype hparse
    unfold CompleteMapper.map_parameters
    rw [h1]
    dsimp only
    rw [h2]
    dsimp only
    have hskip : ∀ m, CompleteMapper.applyParam tool_sig
        ((List.lookup tool_name CompleteMapper.PARAMETER_NAME_MAP).getD [])
        m ⟨some name, Json.str s⟩ = m := by
      intro m
      unfold CompleteMapper.applyParam
      split
      · rfl
      · simp only [Option.getD_some]
        rw [halias]
        dsimp only
        rw [htype]
        dsimp only [CompleteMapper.coerceValue]
        rw [hparse]
        rfl
    rw [foldl_skip _ _ hskip]
  · rfl

/-- C4 witness: the amended statement applied at `maxFindings = "fifty"`
for `getSecurityFindings` (canonical integer parameter `max_findings`). -/
theorem c4_integer_coercion_amended_witness :
    parseIntPy "fifty" = none ∧
    CompleteMapper.map_parameters "getSecurityFindings"
        ([] ++ ⟨some "maxFindings", Json.str "fifty"⟩ :: []) =
      CompleteMapper.map_parameters "getSecurityFindings" ([] ++ []) :=
  ⟨rfl,
   c4_integer_coercion_amended.1 "getSecurityFindings"
     "SecurityMCPTools___GetSecurityFindings" CompleteMapper.getSecurityFindingsSig
     [] [] "maxFindings" "max_findings" "fifty" rfl rfl rfl rfl rfl⟩

/-- C5 counterexample: the gateway proxy Lambda's inline mapping step does
not fail hard on an operation id outside its map — it falls back to the
synthesized substitute tool name `SecurityMCPTools___bogusOperation`. -/
theorem c5_lambda_fallback_counterexample :
    List.lookup "bogusOperation" GatewayProxy.tool_name_map = none ∧
    GatewayProxy.mcpToolName "bogusOperation" = "SecurityMCPTools___bogusOperation" :=
  ⟨rfl, rfl⟩

/-- C5 amended: both `map_parameters` implementations fail hard with
`UnknownOperation` on any operation id outside their operation-to-tool map
and never substitute a tool name; the gateway proxy Lambda's inline lookup,
by contrast, falls back to the synthesized name
`'SecurityMCPTools___' + operation_id`. -/
theorem c5_unknown_operation_amended :
    (∀ (operation_id : String) (inbound : List InboundParam),
      List.lookup operation_id CompleteMapper.OPERATION_TO_TOOL_MAP = none →
      CompleteMapper.map_parameters operation_id inbound =
        .err (.unknownOperation operation_id)) ∧
    (∀ (operation_id : String) (inbound : List (String × Json)),
      List.lookup operation_id SimpleMapper.OPERATION_TO_TOOL_MAP = none →
      SimpleMapper.map_parameters operation_id inbound =
        .err (.unknownOperation operation_id)) ∧
    (∀ operation_id : String,
      List.lookup operation_id GatewayProxy.tool_name_map = none →
      GatewayProxy.mcpToolName operation_id = "SecurityMCPTools___" ++ operation_id) := by
  refine ⟨fun operation_id inbound h => ?_, fun operation_id inbound h => ?_,
    fun operation_id h => ?_⟩
  · unfold CompleteMapper.map_parameters
    rw [h]
  · unfold SimpleMapper.map_parameters
    rw [h]
  · unfold GatewayProxy.mcpToolName
    rw [h]
    rfl

/-- C5 witness: the amended statement applied at the unmapped operation id
`"bogusOperation"`. -/
theorem c5_unknown_operation_amended_witness :
    List.lookup "bogusOperation" CompleteMapper.OPERATION_TO_TOOL_MAP = none ∧
    CompleteMapper.map_parameters "bogusOperation" [] =
      .err (.unknownOperation "bogusOperation") ∧
    GatewayProxy.mcpToolName "bogusOperation" = "SecurityMCPTools___" ++ "bogusOperation" :=
  ⟨rfl, c5_unknown_operation_amended.1 "bogusOperation" [] rfl,
   c5_unknown_operation_amended.2.2 "bogusOperation" rfl⟩

/-- C6 counterexample: in `parameter-mapper.py` an inbound name with no
alias entry is not dropped — `param_map.get(name, name)` passes it through
under its own spelling, so `bogusParam` shows up in the mapped result. -/
theorem c6_unknown_param_counterexample :
    SimpleMapper.map_parameters "checkSecurityStatus" [("bogusParam", Json.str "x")] =
      .ok "SecurityMCPTools___CheckSecurityServices"
        [("region", Json.str "us-east-1"),
         ("service_names", Json.arr []),
         ("bogusParam", Json.str "x")] := rfl

/-- C6 amended: in the complete mapper an inbound parameter whose name has
no alias entry for the resolved tool is dropped with a warning — the call's
result is the same as if the parameter had not been supplied, so the
unknown name appears nowhere in it; in the basic `parameter-mapper.py`
template the unknown name instead passes through into the result under its
own spelling. -/
theorem c6_unknown_param_amended :
    (∀ (operation_id tool_name : String) (pre post : List InboundParam)
       (name : String) (v : Json),
       List.lookup operation_id CompleteMapper.OPERATION_TO_TOOL_MAP = some tool_name →
       List.lookup name ((List.lookup tool_name CompleteMapper.PARAMETER_NAME_MAP).getD []) =
         none →
       CompleteMapper.map_parameters operation_id (pre ++ ⟨some name, v⟩ :: post) =
         CompleteMapper.map_parameters operation_id (pre ++ post)) ∧
    CompleteMapper.map_parameters "checkSecurityStatus" [⟨some "bogusParam", Json.str "x"⟩] =
      .ok "SecurityMCPTools___CheckSecurityServices"
        [("region", Json.str "us-east-1"),
         ("services", Json.arr [Json.str "guardduty", Json.str "inspector",
           Json.str "accessanalyzer", Json.str "securityhub",
           Json.str "trustedadvisor", Json.str "macie"]),
         ("aws_profile", Json.str "default"),
         ("store_in_context", Json.bool true),
         ("debug", Json.bool true)] ∧
    SimpleMapper.map_parameters "checkSecurityStatus" [("bogusParam", Json.str "x")] =
      .ok "SecurityMCPTools___CheckSecurityServices"
        [("region", Json.str "us-east-1"),
         ("service_names", Json.arr []),
         ("bogusParam", Json.str "x")] := by
  refine ⟨?_, rfl, rfl⟩
  intro operation_id tool_name pre post name v h1 halias
  unfold CompleteMapper.map_parameters
  rw [h1]
  dsimp only
  cases h2 : List.lookup tool_name CompleteMapper.GATEWAY_TOOL_SIGNATURES with
  | none => rfl
  | some tool_sig =>
    dsimp only
    have hskip : ∀ m, CompleteMapper.applyParam tool_sig
        ((List.lookup tool_name CompleteMapper.PARAMETER_NAME_MAP).getD [])
        m ⟨some name, v⟩ = m := by
      intro m
      unfold CompleteMapper.applyParam
      split
      · rfl
      · simp only [Option.getD_some]
        rw [halias]
    rw [foldl_skip _ _ hskip]

/-- C6 witness: the amended statement's complete-mapper part applied at the
unknown inbound name `"bogusParam"` for `checkSecurityStatus`. -/
theorem c6_unknown_param_amended_witness :
    List.lookup "bogusParam"
        ((List.lookup "SecurityMCPTools___CheckSecurityServices"
          CompleteMapper.PARAMETER_NAME_MAP).getD []) = none ∧
    CompleteMapper.map_parameters "checkSecurityStatus"
        ([] ++ ⟨some "bogusParam", Json.str "x"⟩ :: []) =
      CompleteMapper.map_parameters "checkSecurityStatus" ([] ++ []) :=
  ⟨rfl,
   c6_unknown_param_amended.1 "checkSecurityStatus"
     "SecurityMCPTools___CheckSecurityServices" [] [] "bogusParam" (Json.str "x") rfl rfl⟩

/-- C7: boolean coercion through the complete mapper's `debug` parameter of
`checkSecurityStatus`: a string coerces to `True` iff its lower-casing is
one of `"true"`, `"1"`, `"yes"`, `"on"` (anything else becomes `False`
without an error), an inbound boolean passes through unchanged, and
non-string non-boolean values convert via Python truthiness. -/
theorem c7_boolean_coercion :
    (∀ s : String,
      CompleteMapper.map_parameters "checkSecurityStatus" [⟨some "debug", Json.str s⟩] =
        .ok "SecurityMCPTools___CheckSecurityServices"
          [("region", Json.str "us-east-1"),
           ("services", Json.arr [Json.str "guardduty", Json.str "inspector",
             Json.str "accessanalyzer", Json.str "securityhub",
             Json.str "trustedadvisor", Json.str "macie"]),
           ("aws_profile", Json.str "default"),
           ("store_in_context", Json.bool true),
           ("debug", Json.bool (["true", "1", "yes", "on"].contains (pyLower s)))]) ∧
    (∀ s : String,
      ["true", "1", "yes", "on"].contains (pyLower s) = true ↔
        pyLower s ∈ ["true", "1", "yes", "on"]) ∧
    (∀ b : Bool,
      CompleteMapper.map_parameters "checkSecurityStatus" [⟨some "debug", Json.bool b⟩] =
        .ok "SecurityMCPTools___CheckSecurityServices"
          [("region", Json.str "us-east-1"),
           ("services", Json.arr [Json.str "guardduty", Json.str "inspector",
             Json.str "accessanalyzer", Json.str "securityhub",
             Json.str "trustedadvisor", Json.str "macie"]),
           ("aws_profile", Json.str "default"),
           ("store_in_context", Json.bool true),
           ("debug", Json.bool b)]) ∧
    (∀ n : Int,
      CompleteMapper.map_parameters "checkSecurityStatus" [⟨some "debug", Json.num n⟩] =
        .ok "SecurityMCPTools___CheckSecurityServices"
          [("region", Json.str "us-east-1"),
           ("services", Json.arr [Json.str "guardduty", Json.str "inspector",
             Json.str "accessanalyzer", Json.str "securityhub",
             Json.str "trustedadvisor", Json.str "macie"]),
           ("aws_profile", Json.str "default"),
           ("store_in_context", Json.bool true),
           ("debug", Json.bool (truthy (Json.num n)))]) ∧
    (∀ l : List Json,
      CompleteMapper.map_parameters "checkSecurityStatus" [⟨some "debug", Json.arr l⟩] =
        .ok "SecurityMCPTools___CheckSecurityServices"
          [("region", Json.str "us-east-1"),
           ("services", Json.arr [Json.str "guardduty", Json.str "inspector",
             Json.str "accessanalyzer", Json.str "securityhub",
             Json.str "trustedadvisor", Json.str "macie"]),
           ("aws_profile", Json.str "default"),
           ("store_in_context", Json.bool true),
           ("debug", Json.bool (truthy (Json.arr l)))]) :=
  ⟨fun s => rfl, fun s => by simp, fun b => rfl, fun n => rfl, fun l => rfl⟩

/-- C8 counterexample: in `parameter-mapper.py` a comma-joined string bound
to an array-typed parameter is not split — `"s3,ebs,rds"` is wrapped whole
as a single-element list. -/
theorem c8_no_split_counterexample :
    SimpleMapper.map_parameters "checkSecurityStatus" [("services", Json.str "s3,ebs,rds")] =
      .ok "SecurityMCPTools___CheckSecurityServices"
        [("region", Json.str "us-east-1"),
         ("service_names", Json.arr [Json.str "s3,ebs,rds"])] := rfl

/-- C8 amended: in the complete mapper, array coercion behaves as claimed —
a list passes through as-is, a comma-bearing string is split on commas with
each segment trimmed, and any other scalar is wrapped in a single-element
list (non-strings through `str()`); the basic `parameter-mapper.py`
template instead wraps every non-list value whole, without splitting. -/
theorem c8_array_coercion_amended :
    (∀ l : List Json,
      CompleteMapper.map_parameters "checkStorageEncryption" [⟨some "services", Json.arr l⟩] =
        .ok "SecurityMCPTools___CheckStorageEncryption"
          [("region", Json.str "us-east-1"),
           ("services", Json.arr l),
           ("include_unencrypted_only", Json.bool false),
           ("aws_profile", Json.str "default"),
           ("store_in_context", Json.bool true)]) ∧
    (∀ s : String, pyContains s (Char.ofNat 44) = true →
      CompleteMapper.map_parameters "checkStorageEncryption" [⟨some "services", Json.str s⟩] =
        .ok "SecurityMCPTools___CheckStorageEncryption"
          [("region", Json.str "us-east-1"),
           ("services", Json.arr ((pySplit s (Char.ofNat 44)).map (fun seg => Json.str (pyTrim seg)))),
           ("include_unencrypted_only", Json.bool false),
           ("aws_profile", Json.str "default"),
           ("store_in_context", Json.bool true)]) ∧
    (∀ s : String, pyContains s (Char.ofNat 44) = false →
      CompleteMapper.map_parameters "checkStorageEncryption" [⟨some "services", Json.str s⟩] =
        .ok "SecurityMCPTools___CheckStorageEncryption"
          [("region", Json.str "us-east-1"),
           ("services", Json.arr [Json.str s]),
           ("include_unencrypted_only", Json.bool false),
           ("aws_profile", Json.str "default"),
           ("store_in_context", Json.bool true)]) ∧
    (∀ n : Int,
      CompleteMapper.map_parameters "checkStorageEncryption" [⟨some "services", Json.num n⟩] =
        .ok "SecurityMCPTools___CheckStorageEncryption"
          [("region", Json.str "us-east-1"),
           ("services", Json.arr [Json.str (pyStr (Json.num n))]),
           ("include_unencrypted_only", Json.bool false),
           ("aws_profile", Json.str "default"),
           ("store_in_context", Json.bool true)]) ∧
    (∀ v : Json,
      SimpleMapper.map_parameters "checkSecurityStatus" [("services", v)] =
        .ok "SecurityMCPTools___CheckSecurityServices"
          [("region", Json.str "us-east-1"),
           ("service_names", match v with
             | Json.arr l => Json.arr l
             | w => Json.arr [w])]) := by
  refine ⟨fun l => rfl, fun s hc => ?_, fun s hc => ?_, fun n => rfl, fun v => ?_⟩
  · simp [CompleteMapper.map_parameters, CompleteMapper.applyParam, CompleteMapper.coerceValue,
      CompleteMapper.OPERATION_TO_TOOL_MAP, CompleteMapper.GATEWAY_TOOL_SIGNATURES,
      CompleteMapper.PARAMETER_NAME_MAP, CompleteMapper.checkStorageEncryptionSig,
      List.lookup, setKey, nameFalsy, missingOrNull, Json.isNull, hc]
  · simp [CompleteMapper.map_parameters, CompleteMapper.applyParam, CompleteMapper.coerceValue,
      CompleteMapper.OPERATION_TO_TOOL_MAP, CompleteMapper.GATEWAY_TOOL_SIGNATURES,
      CompleteMapper.PARAMETER_NAME_MAP, CompleteMapper.checkStorageEncryptionSig,
      List.lookup, setKey, nameFalsy, missingOrNull, Json.isNull, hc]
  · cases v <;> rfl

/-- C8 witness: the amended statement's comma and no-comma cases applied at
the spec's own examples `"s3,ebs,rds"` and `"s3"`. -/
theorem c8_array_coercion_amended_witness :
    pyContains "s3,ebs,rds" (Char.ofNat 44) = true ∧
    CompleteMapper.map_parameters "checkStorageEncryption"
        [⟨some "services", Json.str "s3,ebs,rds"⟩] =
      .ok "SecurityMCPTools___CheckStorageEncryption"
        [("region", Json.str "us-east-1"),
         ("services", Json.arr ((pySplit "s3,ebs,rds" (Char.ofNat 44)).map
           (fun seg => Json.str (pyTrim seg)))),
         ("include_unencrypted_only", Json.bool false),
         ("aws_profile", Json.str "default"),
         ("store_in_context", Json.bool true)] ∧
    pyContains "s3" (Char.ofNat 44) = false ∧
    CompleteMapper.map_parameters "checkStorageEncryption" [⟨some "services", Json.str "s3"⟩] =
      .ok "SecurityMCPTools___CheckStorageEncryption"
        [("region", Json.str "us-east-1"),
         ("services", Json.arr [Json.str "s3"]),
         ("include_unencrypted_only", Json.bool false),
         ("aws_profile", Json.str "default"),
         ("store_in_context", Json.bool true)] :=
  ⟨rfl, c8_array_coercion_amended.2.1 "s3,ebs,rds" rfl,
   rfl, c8_array_coercion_amended.2.2.1 "s3" rfl⟩

/-- Once operation and tool resolution both succeed, `map_parameters` can
only return a result or a missing-required error — never `UnknownTool`. -/
theorem resolvedToolNotUnknownTool
    (operation_id tool_name : String) (tool_sig : ParamSig)
    (params : List InboundParam) (t : String)
    (h1 : List.lookup operation_id CompleteMapper.OPERATION_TO_TOOL_MAP = some tool_name)
    (h2 : List.lookup tool_name CompleteMapper.GATEWAY_TOOL_SIGNATURES = some tool_sig) :
    CompleteMapper.map_parameters operation_id params ≠ .err (.unknownTool t) := by
  unfold CompleteMapper.map_parameters
  rw [h1]
  dsimp only
  rw [h2]
  dsimp only
  split
  · exact fun hc => MapResult.noConfusion hc
  · intro hc
    injection hc with h3
    exact MapError.noConfusion h3

/-- C9: every operation id in `OPERATION_TO_TOOL_MAP` resolves to a tool
name registered in `GATEWAY_TOOL_SIGNATURES`, so whenever operation
resolution succeeds the `UnknownTool` branch of `map_parameters` is
unreachable, for every inbound parameter list. -/
theorem c9_unknown_tool_unreachable :
    ∀ (operation_id tool_name : String) (params : List InboundParam) (t : String),
      List.lookup operation_id CompleteMapper.OPERATION_TO_TOOL_MAP = some tool_name →
      (List.lookup tool_name CompleteMapper.GATEWAY_TOOL_SIGNATURES).isSome = true ∧
      CompleteMapper.map_parameters operation_id params ≠ .err (.unknownTool t) := by
  intro operation_id tool_name params t h1
  simp only [CompleteMapper.OPERATION_TO_TOOL_MAP, List.lookup] at h1
  repeat' split at h1
  all_goals
    first
      | exact Option.noConfusion h1
      | (rename_i heq
         rw [beq_iff_eq] at heq
         subst heq
         injection h1 with h1
         subst h1
         exact ⟨rfl, resolvedToolNotUnknownTool _ _ _ params t rfl rfl⟩)

/-- C9 witness: instantiation at `checkSecurityStatus` with an empty
inbound list. -/
theorem c9_unknown_tool_unreachable_witness :
    List.lookup "checkSecurityStatus" CompleteMapper.OPERATION_TO_TOOL_MAP =
      some "SecurityMCPTools___CheckSecurityServices" ∧
    ((List.lookup "SecurityMCPTools___CheckSecurityServices"
        CompleteMapper.GATEWAY_TOOL_SIGNATURES).isSome = true ∧
      CompleteMapper.map_parameters "checkSecurityStatus" [] ≠
        .err (.unknownTool "SecurityMCPTools___CheckSecurityServices")) :=
  ⟨rfl, c9_unknown_tool_unreachable "checkSecurityStatus"
    "SecurityMCPTools___CheckSecurityServices" []
    "SecurityMCPTools___CheckSecurityServices" rfl⟩

/-- C10: an inbound parameter whose value is `None` or whose name is empty
or missing is skipped entirely by the complete mapper — the call's result
(defaults, other parameters, errors and all) is exactly as if that
parameter had not been supplied, so it overwrites nothing, raises nothing,
and contributes no entry to the mapped arguments. -/
theorem c10_null_or_unnamed_params_skipped :
    ∀ (operation_id : String) (pre post : List InboundParam) (bp : InboundParam),
      bp.name = none ∨ bp.name = some "" ∨ bp.value = Json.null →
      CompleteMapper.map_parameters operation_id (pre ++ bp :: post) =
        CompleteMapper.map_parameters operation_id (pre ++ post) := by
  intro operation_id pre post bp hcond
  unfold CompleteMapper.map_parameters
  cases h1 : List.lookup operation_id CompleteMapper.OPERATION_TO_TOOL_MAP with
  | none => rfl
  | some tool_name =>
    dsimp only
    cases h2 : List.lookup tool_name CompleteMapper.GATEWAY_TOOL_SIGNATURES with
    | none => rfl
    | some tool_sig =>
      dsimp only
      have hskip : ∀ m, CompleteMapper.applyParam tool_sig
          ((List.lookup tool_name CompleteMapper.PARAMETER_NAME_MAP).getD [])
          m bp = m := by
        intro m
        rcases hcond with h | h | h <;>
          simp [CompleteMapper.applyParam, nameFalsy, Json.isNull, h]
      rw [foldl_skip _ _ hskip]

/-- C10 witness: instantiation at a parameter with a missing name. -/
theorem c10_null_or_unnamed_params_skipped_witness :
    ((⟨none, Json.str "x"⟩ : InboundParam).name = none ∨
      (⟨none, Json.str "x"⟩ : InboundParam).name = some "" ∨
      (⟨none, Json.str "x"⟩ : InboundParam).value = Json.null) ∧
    CompleteMapper.map_parameters "checkSecurityStatus"
        ([] ++ ⟨none, Json.str "x"⟩ :: []) =
      CompleteMapper.map_parameters "checkSecurityStatus" ([] ++ []) :=
  ⟨Or.inl rfl,
   c10_null_or_unnamed_params_skipped "checkSecurityStatus" [] []
     ⟨none, Json.str "x"⟩ (Or.inl rfl)⟩
